import Mathlib

/-!
Shallow embedding of the NixOS-WSL boot shim (src/utils/src/shim.rs).

Kernel and libc interactions (stat, mount, wait, exec, spawn, fd handling)
are modelled as oracle results supplied in an environment record; each
embedded function returns the trace of operations it issued together with
its result, mirroring the fail-fast control flow of the Rust source.
OS error codes are plain naturals (Linux errno values).
-/

namespace ShimVerify

/-- Linux errno value for ENOENT (no such file or directory). -/
def ENOENT : Nat := 2

/-- Linux errno value for ECHILD (no child processes). -/
def ECHILD : Nat := 10

/-- Linux errno value for EINVAL, used as a sample foreign error. -/
def EINVAL : Nat := 22

/-- File kind as reported by a stat-family call. -/
inductive FsKind
  | file
  | dir
  | symlink
deriving DecidableEq, Repr

/-- Final resolution of a symlink chain: a symlink ultimately points at a
regular file or a directory (a dangling chain resolves to nothing). -/
inductive Resolved
  | file
  | dir
deriving DecidableEq, Repr

/-- The filesystem object sitting at /dev/shm. For a symlink, `target` is
the kind the full resolution reaches, `none` when the symlink dangles. -/
inductive DevShm
  | absent
  | regular
  | directory
  | symlink (target : Option Resolved)
deriving DecidableEq, Repr

/-- Semantics of stat on /dev/shm: follows the symlink chain to the final
object, so it never reports the symlink kind itself; a dangling symlink or
a missing path yields ENOENT. Models std::fs::metadata. -/
def statKind (s : DevShm) : Except Nat FsKind :=
  match s with
  | DevShm.absent => Except.error ENOENT
  | DevShm.regular => Except.ok FsKind.file
  | DevShm.directory => Except.ok FsKind.dir
  | DevShm.symlink none => Except.error ENOENT
  | DevShm.symlink (some Resolved.file) => Except.ok FsKind.file
  | DevShm.symlink (some Resolved.dir) => Except.ok FsKind.dir

/-- Semantics of lstat on /dev/shm: reports the object itself without
following the final symlink. Models std::fs::symlink_metadata. -/
def lstatKind (s : DevShm) : Except Nat FsKind :=
  match s with
  | DevShm.absent => Except.error ENOENT
  | DevShm.regular => Except.ok FsKind.file
  | DevShm.directory => Except.ok FsKind.dir
  | DevShm.symlink _ => Except.ok FsKind.symlink

/-- Path::is_symlink from the source of unscrew_dev_shm: lstat-based check
that does not follow the final symlink (false when lstat fails). -/
def lstatIsSymlink (s : DevShm) : Bool :=
  match lstatKind s with
  | Except.ok k => decide (k = FsKind.symlink)
  | Except.error _ => false

/-- Path::is_dir from the source of unscrew_dev_shm: stat-based check that
follows symlinks (false when stat fails). -/
def statIsDir (s : DevShm) : Bool :=
  match statKind s with
  | Except.ok k => decide (k = FsKind.dir)
  | Except.error _ => false

/-- The gate in real_main deciding whether the shm repair runs: the source
calls std::fs::metadata (which follows symlinks) and asks the returned
metadata whether it is a symlink. -/
def devShmGate (s : DevShm) : Except Nat Bool :=
  match statKind s with
  | Except.error e => Except.error e
  | Except.ok k => Except.ok (decide (k = FsKind.symlink))

/-- The anyhow error values the shim can produce, one constructor per
error site of the source: a context string wrapped around an OS errno,
the two activation classification errors, the error returned by a failing
exec, and the panic from a missing argv entry. -/
inductive ShimError
  | ctxOs (ctx : String) (e : Nat)
  | activationNonzero (code : Int)
  | activationSignaled
  | execFailed (e : Nat)
  | panicked (msg : String)
deriving DecidableEq, Repr

/-- Mount flags used by the shim. -/
inductive MountFlag
  | msMove
  | msBind
  | msRemount
  | msRdonly
  | msRec
  | msShared
deriving DecidableEq, Repr

/-- One mount(2) invocation: source, target and flag set, in the order the
Rust nix::mount::mount wrapper receives them. -/
structure MountCall where
  src : Option String
  dst : String
  flags : List MountFlag
deriving DecidableEq, Repr

/-- mount(Some("/run/shm"), "/dev/shm", MS_MOVE) from unscrew_dev_shm. -/
def moveShmCall : MountCall :=
  { src := some "/run/shm", dst := "/dev/shm", flags := [MountFlag.msMove] }

/-- mount(Some("/dev/shm"), "/run/shm", MS_BIND) from unscrew_dev_shm. -/
def bindShmCall : MountCall :=
  { src := some "/dev/shm", dst := "/run/shm", flags := [MountFlag.msBind] }

/-- mount(None, "/", MS_REC | MS_SHARED) from remount_root_shared. -/
def rootSharedCall : MountCall :=
  { src := none, dst := "/", flags := [MountFlag.msRec, MountFlag.msShared] }

/-- First call of remount_nix_store_readonly: bind-mount of the store onto
itself. -/
def bindStoreCall : MountCall :=
  { src := some "/nix/store", dst := "/nix/store", flags := [MountFlag.msBind] }

/-- Second call of remount_nix_store_readonly: remount of the bind-mount
with the read-only flag. -/
def remountStoreROCall : MountCall :=
  { src := some "/nix/store", dst := "/nix/store",
    flags := [MountFlag.msBind, MountFlag.msRemount, MountFlag.msRdonly] }

/-- One observable operation issued by the shim, in program order. -/
inductive Step
  | statDevShm
  | fsRemoveFile (p : String)
  | fsRemoveDirAll (p : String)
  | fsCreateDirAll (p : String)
  | mountCall (c : MountCall)
  | openKmsg
  | dupFd
  | spawnActivation
  | waitDirect (pid : Int)
  | waitidFallback (pid : Int)
  | execHandoff (path : String) (argv : List String)
deriving DecidableEq, Repr

/-- check_activation_exit from the source: Some(0) is success, Some(c) for
nonzero c is the nonzero-exit error carrying c, None (signal termination,
no exit code) is the signaled error. -/
def check_activation_exit (code : Option Int) : Except ShimError Unit :=
  match code with
  | some c => if c = 0 then Except.ok () else Except.error (ShimError.activationNonzero c)
  | none => Except.error ShimError.activationSignaled

/-- interpret_waitid_result from the source: Ok and Err(ECHILD) both map to
success, any other errno e maps to the error with context "When waiting"
carrying e. -/
def interpret_waitid_result (r : Except Nat Unit) : Except ShimError Unit :=
  match r with
  | Except.ok _ => Except.ok ()
  | Except.error e =>
      if e = ECHILD then Except.ok ()
      else Except.error (ShimError.ctxOs "When waiting" e)

/-- Oracle results for the fallible filesystem and mount operations inside
unscrew_dev_shm. -/
structure UnscrewEnv where
  removeFileRes : Except Nat Unit
  removeDirAllRes : Except Nat Unit
  createDirAllRes : Except Nat Unit
  moveMountRes : Except Nat Unit
  bindMountRes : Except Nat Unit
deriving Repr

/-- Rebuild phase shared by every branch of unscrew_dev_shm: create the new
/dev/shm directory, move-mount /run/shm onto it, then bind-mount /dev/shm
back onto /run/shm, failing fast with the context string of the failing
sub-step. -/
def unscrewRebuild (pre : List Step) (u : UnscrewEnv) :
    List Step × Except ShimError Unit :=
  match u.createDirAllRes with
  | Except.error e =>
      (pre ++ [Step.fsCreateDirAll "/dev/shm"],
       Except.error (ShimError.ctxOs "When creating new /dev/shm" e))
  | Except.ok _ =>
    match u.moveMountRes with
    | Except.error e =>
        (pre ++ [Step.fsCreateDirAll "/dev/shm", Step.mountCall moveShmCall],
         Except.error (ShimError.ctxOs "When relocating /dev/shm" e))
    | Except.ok _ =>
      match u.bindMountRes with
      | Except.error e =>
          (pre ++ [Step.fsCreateDirAll "/dev/shm", Step.mountCall moveShmCall,
                   Step.mountCall bindShmCall],
           Except.error (ShimError.ctxOs "When bind mounting /run/shm to /dev/shm" e))
      | Except.ok _ =>
          (pre ++ [Step.fsCreateDirAll "/dev/shm", Step.mountCall moveShmCall,
                   Step.mountCall bindShmCall],
           Except.ok ())

/-- unscrew_dev_shm from the source: if /dev/shm is a symlink (lstat-based
check) remove the symlink, otherwise if it is a directory (stat-based check)
remove it recursively, then rebuild the directory and the two mounts. -/
def unscrew_dev_shm (s : DevShm) (u : UnscrewEnv) :
    List Step × Except ShimError Unit :=
  if lstatIsSymlink s then
    match u.removeFileRes with
    | Except.error e =>
        ([Step.fsRemoveFile "/dev/shm"],
         Except.error (ShimError.ctxOs "When removing /dev/shm symlink" e))
    | Except.ok _ => unscrewRebuild [Step.fsRemoveFile "/dev/shm"] u
  else if statIsDir s then
    match u.removeDirAllRes with
    | Except.error e =>
        ([Step.fsRemoveDirAll "/dev/shm"],
         Except.error (ShimError.ctxOs "When removing old /dev/shm" e))
    | Except.ok _ => unscrewRebuild [Step.fsRemoveDirAll "/dev/shm"] u
  else unscrewRebuild [] u

/-- remount_root_shared from the source: one mount call marking / recursively
shared; its failure carries the context "When remounting /". -/
def remount_root_shared (res : Except Nat Unit) :
    List MountCall × Except ShimError Unit :=
  match res with
  | Except.error e => ([rootSharedCall], Except.error (ShimError.ctxOs "When remounting /" e))
  | Except.ok _ => ([rootSharedCall], Except.ok ())

/-- remount_nix_store_readonly from the source: bind-mount /nix/store onto
itself, then remount that bind-mount read-only; fail fast with the context
of the failing call. The two oracle arguments are the kernel results of the
first and second mount call. -/
def remount_nix_store_readonly (bindRes remountRes : Except Nat Unit) :
    List MountCall × Except ShimError Unit :=
  match bindRes with
  | Except.error e =>
      ([bindStoreCall], Except.error (ShimError.ctxOs "When bind mounting /nix/store" e))
  | Except.ok _ =>
    match remountRes with
    | Except.error e =>
        ([bindStoreCall, remountStoreROCall],
         Except.error (ShimError.ctxOs "When remounting /nix/store read-only" e))
    | Except.ok _ => ([bindStoreCall, remountStoreROCall], Except.ok ())

/-- Absolute path of the service manager binary the shim hands off to. -/
def systemdPath : String := "/nix/var/nix/profiles/system/systemd/lib/systemd/systemd"

/-- The slice of std::process::Command the shim uses when building the
handoff invocation: the program path, an optional argv0 override, and the
accumulated argument list. -/
structure Cmd where
  program : String
  argv0 : Option String
  cmdArgs : List String
deriving DecidableEq, Repr

/-- Command::new. -/
def Cmd.new (p : String) : Cmd := { program := p, argv0 := none, cmdArgs := [] }

/-- CommandExt::arg0: overrides argv0 of the executed program. -/
def Cmd.arg0 (c : Cmd) (a : String) : Cmd := { c with argv0 := some a }

/-- Command::arg: appends one argument. -/
def Cmd.arg (c : Cmd) (a : String) : Cmd := { c with cmdArgs := c.cmdArgs ++ [a] }

/-- Command::args: appends a list of arguments. -/
def Cmd.args (c : Cmd) (as : List String) : Cmd := { c with cmdArgs := c.cmdArgs ++ as }

/-- The argv the kernel hands to the executed program: the argv0 override
when present (the program path otherwise), followed by the accumulated
arguments. -/
def Cmd.execArgv (c : Cmd) : List String := c.argv0.getD c.program :: c.cmdArgs

/-- The handoff command from real_main, built exactly as the source chains
it: Command::new(systemd path), arg0 set to the original argv0 of the shim,
then the fixed flag, then the original arguments after argv0. -/
def handoffCmd (a0 : String) (rest : List String) : Cmd :=
  (((Cmd.new systemdPath).arg0 a0).arg "--log-target=kmsg").args rest

/-- Oracle results for every kernel interaction of one real_main run,
plus the process argument vector (argv0 included). The exec oracle is the
errno observed when exec returns; a successful exec never returns and so
never yields a terminating execution of real_main. -/
structure Env where
  shm : DevShm
  uenv : UnscrewEnv
  rootSharedRes : Except Nat Unit
  storeBindRes : Except Nat Unit
  storeRemountRes : Except Nat Unit
  kmsgOpenRes : Except Nat Unit
  dupRes : Except Nat Unit
  spawnRes : Except Nat Int
  childWaitRes : Except Nat (Option Int)
  waitidRes : Except Nat Unit
  execErrno : Nat
  argv : List String
deriving Repr

/-- Fail-fast sequencing of two traced computations: on error the second
never runs and the first trace stands; on success the traces concatenate. -/
def seqT (a : List Step × Except ShimError Unit)
    (b : Unit → List Step × Except ShimError Unit) :
    List Step × Except ShimError Unit :=
  match a with
  | (t, Except.error e) => (t, Except.error e)
  | (t, Except.ok _) => (t ++ (b ()).1, (b ()).2)

/-- First pipeline step of real_main: stat /dev/shm (std::fs::metadata with
the context "When checking /dev/shm"), and run unscrew_dev_shm exactly when
the followed metadata reports a symlink. -/
def shmPhase (env : Env) : List Step × Except ShimError Unit :=
  match devShmGate env.shm with
  | Except.error e =>
      ([Step.statDevShm], Except.error (ShimError.ctxOs "When checking /dev/shm" e))
  | Except.ok true =>
      (Step.statDevShm :: (unscrew_dev_shm env.shm env.uenv).1,
       (unscrew_dev_shm env.shm env.uenv).2)
  | Except.ok false => ([Step.statDevShm], Except.ok ())

/-- Second pipeline step: remount_root_shared, its mount call lifted into the
step trace. -/
def rootPhase (env : Env) : List Step × Except ShimError Unit :=
  ((remount_root_shared env.rootSharedRes).1.map Step.mountCall,
   (remount_root_shared env.rootSharedRes).2)

/-- Third pipeline step: remount_nix_store_readonly, its mount calls lifted
into the step trace. -/
def storePhase (env : Env) : List Step × Except ShimError Unit :=
  ((remount_nix_store_readonly env.storeBindRes env.storeRemountRes).1.map Step.mountCall,
   (remount_nix_store_readonly env.storeBindRes env.storeRemountRes).2)

/-- The supervision of the spawned activation process from real_main: the
direct blocking child.wait comes first; when it succeeds its exit code is
classified by check_activation_exit, and on any error the waitid fallback
runs on the same pid and its result goes through interpret_waitid_result. -/
def superviseActivation (pid : Int) (waitRes : Except Nat (Option Int))
    (waitidRes : Except Nat Unit) : List Step × Except ShimError Unit :=
  match waitRes with
  | Except.ok code => ([Step.waitDirect pid], check_activation_exit code)
  | Except.error _ =>
      ([Step.waitDirect pid, Step.waitidFallback pid], interpret_waitid_result waitidRes)

/-- Fourth pipeline step: open /dev/kmsg, duplicate the descriptor, spawn the
activation program, then supervise it; each fallible call fails fast with the
context string of the source. -/
def activationPhase (env : Env) : List Step × Except ShimError Unit :=
  match env.kmsgOpenRes with
  | Except.error e =>
      ([Step.openKmsg], Except.error (ShimError.ctxOs "When opening /dev/kmsg" e))
  | Except.ok _ =>
    match env.dupRes with
    | Except.error e =>
        ([Step.openKmsg, Step.dupFd],
         Except.error (ShimError.ctxOs "When duplicating /dev/kmsg fd" e))
    | Except.ok _ =>
      match env.spawnRes with
      | Except.error e =>
          ([Step.openKmsg, Step.dupFd, Step.spawnActivation],
           Except.error (ShimError.ctxOs "When activating" e))
      | Except.ok pid =>
          ([Step.openKmsg, Step.dupFd, Step.spawnActivation] ++
             (superviseActivation pid env.childWaitRes env.waitidRes).1,
           (superviseActivation pid env.childWaitRes env.waitidRes).2)

/-- Final pipeline step: exec the service manager with the rebuilt argv. The
source wraps the value returned by exec in Err unconditionally, because exec
only returns on failure; an empty argv makes the source panic on the missing
argv0, modelled as the panicked error. -/
def handoffPhase (env : Env) : List Step × Except ShimError Unit :=
  match env.argv with
  | [] => ([], Except.error (ShimError.panicked "arg0 missing"))
  | a0 :: rest =>
      ([Step.execHandoff systemdPath ((handoffCmd a0 rest).execArgv)],
       Except.error (ShimError.execFailed env.execErrno))

/-- real_main from the source: the five pipeline steps in order, fail-fast. -/
def real_main (env : Env) : List Step × Except ShimError Unit :=
  seqT (shmPhase env) (fun _ =>
    seqT (rootPhase env) (fun _ =>
      seqT (storePhase env) (fun _ =>
        seqT (activationPhase env) (fun _ =>
          handoffPhase env))))

/-- Observable outcome of the main entry point: the error it logged, when
any, and the process exit status. -/
structure MainOutcome where
  loggedError : Option ShimError
  exitCode : Nat
deriving DecidableEq, Repr

/-- main from the source: it runs real_main, logs the error when real_main
returns one, and then returns unit from the entry point, so the process
exit status is 0 on every terminating execution. -/
def main (env : Env) : MainOutcome :=
  match (real_main env).2 with
  | Except.error e => { loggedError := some e, exitCode := 0 }
  | Except.ok _ => { loggedError := none, exitCode := 0 }

/-- Upper bound on the trace of unscrew_dev_shm: the two possible removals
followed by the rebuild operations, in program order. -/
def unscrewCanonical : List Step :=
  [Step.fsRemoveFile "/dev/shm", Step.fsRemoveDirAll "/dev/shm",
   Step.fsCreateDirAll "/dev/shm", Step.mountCall moveShmCall, Step.mountCall bindShmCall]

/-- Upper bound on the trace of the shm phase. -/
def canonicalShm : List Step := Step.statDevShm :: unscrewCanonical

/-- Trace of the root remount phase. -/
def canonicalRoot : List Step := [Step.mountCall rootSharedCall]

/-- Upper bound on the trace of the store remount phase. -/
def canonicalStore : List Step :=
  [Step.mountCall bindStoreCall, Step.mountCall remountStoreROCall]

/-- Upper bound on the trace of the activation phase. -/
def canonicalActivation (env : Env) : List Step :=
  [Step.openKmsg, Step.dupFd, Step.spawnActivation] ++
    (match env.spawnRes with
     | Except.ok pid => [Step.waitDirect pid, Step.waitidFallback pid]
     | Except.error _ => [])

/-- Trace of the handoff phase. -/
def canonicalHandoff (env : Env) : List Step :=
  match env.argv with
  | [] => []
  | a0 :: rest => [Step.execHandoff systemdPath ((handoffCmd a0 rest).execArgv)]

/-- The full program-order upper bound on the trace of real_main. -/
def canonicalTrace (env : Env) : List Step :=
  canonicalShm ++ (canonicalRoot ++ (canonicalStore ++
    (canonicalActivation env ++ canonicalHandoff env)))

/-- All the pipeline steps ahead of the direct child wait succeeded. -/
def preOk (env : Env) : Prop :=
  (shmPhase env).2 = Except.ok () ∧ env.rootSharedRes = Except.ok () ∧
  env.storeBindRes = Except.ok () ∧ env.storeRemountRes = Except.ok () ∧
  env.kmsgOpenRes = Except.ok () ∧ env.dupRes = Except.ok () ∧
  ∃ p, env.spawnRes = Except.ok p

/-- An unscrew oracle where every operation succeeds. -/
def okUnscrewEnv : UnscrewEnv :=
  ⟨Except.ok (), Except.ok (), Except.ok (), Except.ok (), Except.ok ()⟩

/-- Concrete run for claim C1: /dev/shm is a symlink resolving to a
directory and every kernel operation succeeds. -/
def envC1 : Env :=
  ⟨DevShm.symlink (some Resolved.dir), okUnscrewEnv, Except.ok (), Except.ok (),
   Except.ok (), Except.ok (), Except.ok (), Except.ok 7, Except.ok (some 0),
   Except.ok (), ENOENT, ["/sbin/init"]⟩

/-- Concrete run for claim C2: everything succeeds until the activation
program exits with code 3, a fatal pipeline failure before handoff. -/
def envC2 : Env :=
  ⟨DevShm.directory, okUnscrewEnv, Except.ok (), Except.ok (),
   Except.ok (), Except.ok (), Except.ok (), Except.ok 7, Except.ok (some 3),
   Except.ok (), ENOENT, ["/sbin/init"]⟩

/-- Concrete run for claim C5: the direct wait fails with ECHILD and the
waitid fallback succeeds. -/
def envC5 : Env :=
  ⟨DevShm.directory, okUnscrewEnv, Except.ok (), Except.ok (),
   Except.ok (), Except.ok (), Except.ok (), Except.ok 7, Except.error ECHILD,
   Except.ok (), ENOENT, ["/sbin/init"]⟩

/-- Concrete run for claim C6: the shim received one extra argument. -/
def envC6 : Env :=
  ⟨DevShm.directory, okUnscrewEnv, Except.ok (), Except.ok (),
   Except.ok (), Except.ok (), Except.ok (), Except.ok 7, Except.ok (some 0),
   Except.ok (), ENOENT, ["/sbin/init", "--unit=multi-user.target"]⟩

/-- Concrete run for claim C8: everything succeeds until the activation
program exits with code 17. -/
def envC8 : Env :=
  ⟨DevShm.directory, okUnscrewEnv, Except.ok (), Except.ok (),
   Except.ok (), Except.ok (), Except.ok (), Except.ok 7, Except.ok (some 17),
   Except.ok (), ENOENT, ["/sbin/init"]⟩

/-- Claim C4: check_activation_exit maps Some(0) to success, Some(n) for every
nonzero n to the fatal nonzero-exit error carrying n, and None to the fatal
signaled error. -/
theorem c4_check_activation_exit_spec :
    check_activation_exit (some 0) = Except.ok () ∧
    (∀ c : Int, c ≠ 0 →
      check_activation_exit (some c) = Except.error (ShimError.activationNonzero c)) ∧
    check_activation_exit none = Except.error ShimError.activationSignaled := by
  refine ⟨rfl, ?_, rfl⟩
  intro c hc
  simp [check_activation_exit, hc]

/-- Witness for C4 at the concrete nonzero exit code 5. -/
theorem c4_witness :
    check_activation_exit (some 5) = Except.error (ShimError.activationNonzero 5) :=
  c4_check_activation_exit_spec.2.1 5 (by decide)

/-- Claim C7: remount_nix_store_readonly issues at most the two mount calls,
in order bind first and read-only remount second; whenever the first call
succeeds it issues exactly those two calls in that order; it returns success
exactly when both calls succeed; and a failing second call after a successful
first call is a fatal error. -/
theorem c7_store_readonly_two_calls :
    ∀ bindRes remountRes : Except Nat Unit,
      (∃ t, (remount_nix_store_readonly bindRes remountRes).1 ++ t =
        [bindStoreCall, remountStoreROCall]) ∧
      (bindRes = Except.ok () →
        (remount_nix_store_readonly bindRes remountRes).1 =
          [bindStoreCall, remountStoreROCall]) ∧
      ((remount_nix_store_readonly bindRes remountRes).2 = Except.ok () ↔
        bindRes = Except.ok () ∧ remountRes = Except.ok ()) ∧
      (∀ e : Nat, bindRes = Except.ok () → remountRes = Except.error e →
        (remount_nix_store_readonly bindRes remountRes).2 =
          Except.error (ShimError.ctxOs "When remounting /nix/store read-only" e)) := by
  intro bindRes remountRes
  cases bindRes with
  | error e =>
      refine ⟨⟨[remountStoreROCall], rfl⟩, ?_, ?_, ?_⟩
      · intro h; cases h
      · simp [remount_nix_store_readonly]
      · intro e2 h; cases h
  | ok u =>
      cases u
      cases remountRes with
      | error e =>
          refine ⟨⟨[], rfl⟩, fun _ => rfl, ?_, ?_⟩
          · simp [remount_nix_store_readonly]
          · intro e2 _ h
            cases h
            rfl
      | ok u2 =>
          cases u2
          refine ⟨⟨[], rfl⟩, fun _ => rfl, ?_, ?_⟩
          · simp [remount_nix_store_readonly]
          · intro e2 _ h; cases h

/-- Witness for C7: with a successful bind and a remount failing with EINVAL,
the trace is the two calls in order and the result is the fatal remount
error. -/
theorem c7_witness :
    (remount_nix_store_readonly (Except.ok ()) (Except.error EINVAL)).1 =
      [bindStoreCall, remountStoreROCall] ∧
    (remount_nix_store_readonly (Except.ok ()) (Except.error EINVAL)).2 =
      Except.error (ShimError.ctxOs "When remounting /nix/store read-only" EINVAL) :=
  ⟨(c7_store_readonly_two_calls (Except.ok ()) (Except.error EINVAL)).2.1 rfl,
   (c7_store_readonly_two_calls (Except.ok ()) (Except.error EINVAL)).2.2.2 EINVAL rfl rfl⟩

/-- Claim C10: when /dev/shm is neither a symlink nor a directory (absent or
a regular file), unscrew_dev_shm issues no removal operation at all, and when
the rebuild operations succeed its trace is exactly directory creation, the
move-mount from /run/shm, and the reverse bind-mount, with success. -/
theorem c10_no_removal_still_rebuilds :
    ∀ (s : DevShm) (u : UnscrewEnv),
      s = DevShm.absent ∨ s = DevShm.regular →
      (∀ p : String,
        Step.fsRemoveFile p ∉ (unscrew_dev_shm s u).1 ∧
        Step.fsRemoveDirAll p ∉ (unscrew_dev_shm s u).1) ∧
      (u.createDirAllRes = Except.ok () → u.moveMountRes = Except.ok () →
        u.bindMountRes = Except.ok () →
        unscrew_dev_shm s u =
          ([Step.fsCreateDirAll "/dev/shm", Step.mountCall moveShmCall,
            Step.mountCall bindShmCall], Except.ok ())) := by
  intro s u hs
  have hgate : unscrew_dev_shm s u = unscrewRebuild [] u := by
    rcases hs with h | h <;> subst h <;>
      simp [unscrew_dev_shm, lstatIsSymlink, statIsDir, lstatKind, statKind]
  constructor
  · intro p
    rw [hgate]
    unfold unscrewRebuild
    cases u.createDirAllRes with
    | error e => simp
    | ok v =>
      cases v
      cases u.moveMountRes with
      | error e => simp [moveShmCall]
      | ok v2 =>
        cases v2
        cases u.bindMountRes with
        | error e => simp [moveShmCall, bindShmCall]
        | ok v3 => cases v3; simp [moveShmCall, bindShmCall]
  · intro h1 h2 h3
    rw [hgate]
    unfold unscrewRebuild
    rw [h1, h2, h3]
    rfl

/-- Witness for C10: with /dev/shm absent and all rebuild oracles succeeding,
no removal step appears and the rebuild runs to success. -/
theorem c10_witness :
    (Step.fsRemoveFile "/dev/shm" ∉
      (unscrew_dev_shm DevShm.absent okUnscrewEnv).1) ∧
    unscrew_dev_shm DevShm.absent okUnscrewEnv =
      ([Step.fsCreateDirAll "/dev/shm", Step.mountCall moveShmCall,
        Step.mountCall bindShmCall], Except.ok ()) :=
  ⟨((c10_no_removal_still_rebuilds DevShm.absent okUnscrewEnv
      (Or.inl rfl)).1 "/dev/shm").1,
   (c10_no_removal_still_rebuilds DevShm.absent okUnscrewEnv
      (Or.inl rfl)).2 rfl rfl rfl⟩

/-- On a failing first component, seqT propagates the error unchanged. -/
theorem seqT_snd_of_error (a : List Step × Except ShimError Unit)
    (b : Unit → List Step × Except ShimError Unit) (e : ShimError)
    (h : a.2 = Except.error e) : (seqT a b).2 = Except.error e := by
  rcases a with ⟨t, r⟩
  cases r with
  | error e2 => cases h; rfl
  | ok u => cases h

/-- On a successful first component, the result of seqT is the result of the
second component. -/
theorem seqT_snd_ok (a : List Step × Except ShimError Unit)
    (b : Unit → List Step × Except ShimError Unit)
    (h : a.2 = Except.ok ()) : (seqT a b).2 = (b ()).2 := by
  rcases a with ⟨t, r⟩
  cases r with
  | error e => cases h
  | ok u => cases u; rfl

/-- When the second component always fails, the whole seqT fails. -/
theorem seqT_error_of_last (a : List Step × Except ShimError Unit)
    (b : Unit → List Step × Except ShimError Unit)
    (h : ∃ e, (b ()).2 = Except.error e) :
    ∃ e, (seqT a b).2 = Except.error e := by
  rcases a with ⟨t, r⟩
  cases r with
  | error e => exact ⟨e, rfl⟩
  | ok u =>
      cases u
      rcases h with ⟨e, he⟩
      exact ⟨e, he⟩

/-- Membership in a seqT trace comes from the first trace, or from the second
trace with the first component having succeeded. -/
theorem seqT_mem (a : List Step × Except ShimError Unit)
    (b : Unit → List Step × Except ShimError Unit) (st : Step)
    (h : st ∈ (seqT a b).1) :
    st ∈ a.1 ∨ (a.2 = Except.ok () ∧ st ∈ (b ()).1) := by
  rcases a with ⟨t, r⟩
  cases r with
  | error e => exact Or.inl h
  | ok u =>
      cases u
      rcases List.mem_append.mp h with h1 | h2
      · exact Or.inl h1
      · exact Or.inr ⟨rfl, h2⟩

/-- Sublist bounds compose through seqT. -/
theorem seqT_sublist (a : List Step × Except ShimError Unit)
    (b : Unit → List Step × Except ShimError Unit) (ca cb : List Step)
    (ha : List.Sublist a.1 ca) (hb : List.Sublist (b ()).1 cb) :
    List.Sublist (seqT a b).1 (ca ++ cb) := by
  rcases a with ⟨t, r⟩
  cases r with
  | error e => exact ha.trans (List.sublist_append_left ca cb)
  | ok u => cases u; exact List.Sublist.append ha hb

/-- The handoff phase never returns success: exec only returns on failure. -/
theorem handoffPhase_always_error (env : Env) :
    ∃ e, (handoffPhase env).2 = Except.error e := by
  cases h : env.argv with
  | nil => exact ⟨ShimError.panicked "arg0 missing", by simp [handoffPhase, h]⟩
  | cons a0 rest => exact ⟨ShimError.execFailed env.execErrno, by simp [handoffPhase, h]⟩

/-- A successful rebuild consumed successes of all three rebuild oracles. -/
theorem unscrewRebuild_ok (pre : List Step) (u : UnscrewEnv)
    (h : (unscrewRebuild pre u).2 = Except.ok ()) :
    u.createDirAllRes = Except.ok () ∧ u.moveMountRes = Except.ok () ∧
    u.bindMountRes = Except.ok () := by
  obtain ⟨rf, rd, cd, mv, bd⟩ := u
  cases cd with
  | error e => simp [unscrewRebuild] at h
  | ok v =>
    cases v
    cases mv with
    | error e => simp [unscrewRebuild] at h
    | ok v2 =>
      cases v2
      cases bd with
      | error e => simp [unscrewRebuild] at h
      | ok v3 => cases v3; exact ⟨rfl, rfl, rfl⟩

/-- A successful unscrew consumed successes of every oracle it touched. -/
theorem unscrew_ok_oracles (s : DevShm) (u : UnscrewEnv)
    (h : (unscrew_dev_shm s u).2 = Except.ok ()) :
    u.createDirAllRes = Except.ok () ∧ u.moveMountRes = Except.ok () ∧
    u.bindMountRes = Except.ok () := by
  by_cases h1 : lstatIsSymlink s = true
  · simp only [unscrew_dev_shm, h1, if_true] at h
    cases h2 : u.removeFileRes with
    | error e => rw [h2] at h; simp at h
    | ok v =>
        cases v
        rw [h2] at h
        exact unscrewRebuild_ok _ _ h
  · have h1f : lstatIsSymlink s = false := by
      cases hb : lstatIsSymlink s
      · rfl
      · exact absurd hb h1
    by_cases h2 : statIsDir s = true
    · simp only [unscrew_dev_shm, h1f, Bool.false_eq_true, if_false, h2, if_true] at h
      cases h3 : u.removeDirAllRes with
      | error e => rw [h3] at h; simp at h
      | ok v =>
          cases v
          rw [h3] at h
          exact unscrewRebuild_ok _ _ h
    · have h2f : statIsDir s = false := by
        cases hb : statIsDir s
        · rfl
        · exact absurd hb h2
      simp only [unscrew_dev_shm, h1f, h2f, Bool.false_eq_true, if_false] at h
      exact unscrewRebuild_ok _ _ h

/-- A successful activation phase consumed successes of the open, dup and
spawn oracles, and its wait logic succeeded either through a zero direct
exit or through the waitid fallback with Ok or ECHILD. -/
theorem activationPhase_ok_oracles (env : Env)
    (h : (activationPhase env).2 = Except.ok ()) :
    env.kmsgOpenRes = Except.ok () ∧ env.dupRes = Except.ok () ∧
    (∃ p, env.spawnRes = Except.ok p) ∧
    (env.childWaitRes = Except.ok (some 0) ∨
      ((∃ e, env.childWaitRes = Except.error e) ∧
       (env.waitidRes = Except.ok () ∨ env.waitidRes = Except.error ECHILD))) := by
  obtain ⟨shm, uenv, rt, sb, sr, km, dp, sp, cw, wd, ex, av⟩ := env
  cases km with
  | error e => simp [activationPhase] at h
  | ok v =>
    cases v
    cases dp with
    | error e => simp [activationPhase] at h
    | ok v2 =>
      cases v2
      cases sp with
      | error e => simp [activationPhase] at h
      | ok pid =>
        simp only [activationPhase] at h
        cases cw with
        | ok code =>
            simp only [superviseActivation] at h
            cases code with
            | none => simp [check_activation_exit] at h
            | some c =>
                by_cases hc : c = 0
                · subst hc
                  exact ⟨rfl, rfl, ⟨pid, rfl⟩, Or.inl rfl⟩
                · simp [check_activation_exit, hc] at h
        | error e =>
            simp only [superviseActivation] at h
            cases wd with
            | ok v3 =>
                cases v3
                exact ⟨rfl, rfl, ⟨pid, rfl⟩, Or.inr ⟨⟨e, rfl⟩, Or.inl rfl⟩⟩
            | error e2 =>
                by_cases he : e2 = ECHILD
                · subst he
                  exact ⟨rfl, rfl, ⟨pid, rfl⟩, Or.inr ⟨⟨e, rfl⟩, Or.inr rfl⟩⟩
                · simp [interpret_waitid_result, he] at h

/-- The rebuild trace extends its removal prefix by a sublist of the three
rebuild steps in order. -/
theorem unscrewRebuild_sublist (pre : List Step) (u : UnscrewEnv) :
    List.Sublist (unscrewRebuild pre u).1
      (pre ++ [Step.fsCreateDirAll "/dev/shm", Step.mountCall moveShmCall,
               Step.mountCall bindShmCall]) := by
  unfold unscrewRebuild
  cases hc : u.createDirAllRes with
  | error e =>
      exact List.Sublist.append (List.Sublist.refl pre)
        (show List.Sublist [Step.fsCreateDirAll "/dev/shm"]
          [Step.fsCreateDirAll "/dev/shm", Step.mountCall moveShmCall,
           Step.mountCall bindShmCall] by decide)
  | ok v =>
    cases v
    cases hm : u.moveMountRes with
    | error e =>
        exact List.Sublist.append (List.Sublist.refl pre)
          (show List.Sublist [Step.fsCreateDirAll "/dev/shm", Step.mountCall moveShmCall]
            [Step.fsCreateDirAll "/dev/shm", Step.mountCall moveShmCall,
             Step.mountCall bindShmCall] by decide)
    | ok v2 =>
      cases v2
      cases hb : u.bindMountRes with
      | error e => exact List.Sublist.refl _
      | ok v3 => cases v3; exact List.Sublist.refl _

/-- The trace of unscrew_dev_shm is always a sublist of its canonical
program-order trace. -/
theorem unscrew_sublist (s : DevShm) (u : UnscrewEnv) :
    List.Sublist (unscrew_dev_shm s u).1 unscrewCanonical := by
  have hre : ∀ pre : List Step,
      List.Sublist pre [Step.fsRemoveFile "/dev/shm", Step.fsRemoveDirAll "/dev/shm"] →
      List.Sublist (unscrewRebuild pre u).1 unscrewCanonical := by
    intro pre hpre
    refine (unscrewRebuild_sublist pre u).trans ?_
    exact show List.Sublist _
      ([Step.fsRemoveFile "/dev/shm", Step.fsRemoveDirAll "/dev/shm"] ++
       [Step.fsCreateDirAll "/dev/shm", Step.mountCall moveShmCall,
        Step.mountCall bindShmCall]) from
      List.Sublist.append hpre (List.Sublist.refl _)
  unfold unscrew_dev_shm
  by_cases h1 : lstatIsSymlink s = true
  · simp only [h1, if_true]
    cases hr : u.removeFileRes with
    | error e =>
        exact show List.Sublist [Step.fsRemoveFile "/dev/shm"] unscrewCanonical by decide
    | ok v =>
        cases v
        exact hre [Step.fsRemoveFile "/dev/shm"] (by decide)
  · have h1f : lstatIsSymlink s = false := by
      cases hb : lstatIsSymlink s
      · rfl
      · exact absurd hb h1
    by_cases h2 : statIsDir s = true
    · simp only [h1f, Bool.false_eq_true, if_false, h2, if_true]
      cases hr : u.removeDirAllRes with
      | error e =>
          exact show List.Sublist [Step.fsRemoveDirAll "/dev/shm"] unscrewCanonical by decide
      | ok v =>
          cases v
          exact hre [Step.fsRemoveDirAll "/dev/shm"] (by decide)
    · have h2f : statIsDir s = false := by
        cases hb : statIsDir s
        · rfl
        · exact absurd hb h2
      simp only [h1f, h2f, Bool.false_eq_true, if_false]
      exact hre [] (List.nil_sublist _)

/-- The trace of the shm phase is bounded by its canonical trace. -/
theorem shmPhase_sublist (env : Env) :
    List.Sublist (shmPhase env).1 canonicalShm := by
  cases hg : devShmGate env.shm with
  | error e => simp only [shmPhase, hg]; decide
  | ok b =>
    cases b
    · simp only [shmPhase, hg]; decide
    · simp only [shmPhase, hg]
      exact List.Sublist.cons₂ _ (unscrew_sublist env.shm env.uenv)

/-- The root phase trace is exactly the one recursive shared remount call. -/
theorem rootPhase_trace (env : Env) : (rootPhase env).1 = canonicalRoot := by
  cases h : env.rootSharedRes <;>
    simp [rootPhase, remount_root_shared, h, canonicalRoot]

/-- The store phase trace is bounded by the two store mount calls. -/
theorem storePhase_sublist (env : Env) :
    List.Sublist (storePhase env).1 canonicalStore := by
  cases hb : env.storeBindRes with
  | error e => simp only [storePhase, remount_nix_store_readonly, hb]; decide
  | ok v =>
    cases v
    cases hr : env.storeRemountRes with
    | error e => simp only [storePhase, remount_nix_store_readonly, hb, hr]; decide
    | ok v2 =>
        cases v2
        simp only [storePhase, remount_nix_store_readonly, hb, hr]
        decide

/-- The activation phase trace is bounded by its canonical trace. -/
theorem activationPhase_sublist (env : Env) :
    List.Sublist (activationPhase env).1 (canonicalActivation env) := by
  cases hk : env.kmsgOpenRes with
  | error e =>
      simp only [activationPhase, canonicalActivation, hk]
      exact (show List.Sublist [Step.openKmsg]
        [Step.openKmsg, Step.dupFd, Step.spawnActivation] by decide).trans
        (List.sublist_append_left _ _)
  | ok v =>
    cases v
    cases hd : env.dupRes with
    | error e =>
        simp only [activationPhase, canonicalActivation, hk, hd]
        exact (show List.Sublist [Step.openKmsg, Step.dupFd]
          [Step.openKmsg, Step.dupFd, Step.spawnActivation] by decide).trans
          (List.sublist_append_left _ _)
    | ok v2 =>
      cases v2
      cases hs : env.spawnRes with
      | error e =>
          simp only [activationPhase, canonicalActivation, hk, hd, hs]
          exact List.sublist_append_left _ _
      | ok pid =>
          simp only [activationPhase, canonicalActivation, hk, hd, hs]
          refine List.Sublist.append (List.Sublist.refl _) ?_
          cases env.childWaitRes with
          | ok code =>
              simp only [superviseActivation]
              exact List.Sublist.cons₂ _ (List.nil_sublist [Step.waitidFallback pid])
          | error e =>
              simp only [superviseActivation]
              exact List.Sublist.refl _

/-- The handoff phase trace is exactly its canonical trace. -/
theorem handoffPhase_trace (env : Env) :
    (handoffPhase env).1 = canonicalHandoff env := by
  cases h : env.argv <;> simp [handoffPhase, canonicalHandoff, h]

/-- The full real_main trace is a sublist of the canonical program order. -/
theorem real_main_sublist (env : Env) :
    List.Sublist (real_main env).1 (canonicalTrace env) := by
  unfold real_main canonicalTrace
  refine seqT_sublist _ _ _ _ (shmPhase_sublist env) ?_
  refine seqT_sublist _ _ _ _ ?_ ?_
  · rw [rootPhase_trace env]
  · refine seqT_sublist _ _ _ _ (storePhase_sublist env) ?_
    refine seqT_sublist _ _ _ _ (activationPhase_sublist env) ?_
    rw [handoffPhase_trace env]

/-- Any step in the real_main trace belongs to one of the five phases; a
handoff step demands that the activation phase succeeded. -/
theorem real_main_mem_cases (env : Env) (st : Step)
    (h : st ∈ (real_main env).1) :
    st ∈ (shmPhase env).1 ∨ st ∈ (rootPhase env).1 ∨ st ∈ (storePhase env).1 ∨
    st ∈ (activationPhase env).1 ∨
    ((activationPhase env).2 = Except.ok () ∧ st ∈ (handoffPhase env).1) := by
  unfold real_main at h
  rcases seqT_mem _ _ _ h with h1 | ⟨_, h2⟩
  · exact Or.inl h1
  rcases seqT_mem _ _ _ h2 with h1 | ⟨_, h2b⟩
  · exact Or.inr (Or.inl h1)
  rcases seqT_mem _ _ _ h2b with h1 | ⟨_, h2c⟩
  · exact Or.inr (Or.inr (Or.inl h1))
  rcases seqT_mem _ _ _ h2c with h1 | ⟨hok, h2d⟩
  · exact Or.inr (Or.inr (Or.inr (Or.inl h1)))
  · exact Or.inr (Or.inr (Or.inr (Or.inr ⟨hok, h2d⟩)))

/-- No handoff exec happens during the shm phase. -/
theorem execHandoff_notin_shm (env : Env) (p : String) (a : List String) :
    Step.execHandoff p a ∉ (shmPhase env).1 := fun h => by
  have h2 := (shmPhase_sublist env).subset h
  simp [canonicalShm, unscrewCanonical] at h2

/-- No handoff exec happens during the root phase. -/
theorem execHandoff_notin_root (env : Env) (p : String) (a : List String) :
    Step.execHandoff p a ∉ (rootPhase env).1 := fun h => by
  rw [rootPhase_trace env] at h
  simp [canonicalRoot] at h

/-- No handoff exec happens during the store phase. -/
theorem execHandoff_notin_store (env : Env) (p : String) (a : List String) :
    Step.execHandoff p a ∉ (storePhase env).1 := fun h => by
  have h2 := (storePhase_sublist env).subset h
  simp [canonicalStore] at h2

/-- No handoff exec happens during the activation phase. -/
theorem execHandoff_notin_activation (env : Env) (p : String) (a : List String) :
    Step.execHandoff p a ∉ (activationPhase env).1 := fun h => by
  have h2 := (activationPhase_sublist env).subset h
  simp only [canonicalActivation] at h2
  rcases List.mem_append.mp h2 with h3 | h4
  · simp at h3
  · cases hs : env.spawnRes with
    | ok pid => rw [hs] at h4; simp at h4
    | error e => rw [hs] at h4; simp at h4

/-- Claim C1 evaluation: the gate that decides whether the shm repair runs is
built on std::fs::metadata, which follows symlinks, so it never classifies
/dev/shm as a symlink: on a symlink to a directory it reports not-a-symlink,
no branch of real_main can ever remove the /dev/shm symlink, and the run with
a symlinked /dev/shm skips the repair and proceeds as if the path were
correct. -/
theorem c1_shm_gate_follows_symlinks :
    devShmGate (DevShm.symlink (some Resolved.dir)) = Except.ok false ∧
    (∀ s : DevShm, devShmGate s ≠ Except.ok true) ∧
    (∀ p : String, Step.fsRemoveFile p ∉ (real_main envC1).1) ∧
    (shmPhase envC1).2 = Except.ok () := by
  refine ⟨rfl, ?_, ?_, rfl⟩
  · intro s
    cases s with
    | absent => simp [devShmGate, statKind]
    | regular => simp [devShmGate, statKind]
    | directory => simp [devShmGate, statKind]
    | symlink t =>
        cases t with
        | none => simp [devShmGate, statKind]
        | some r => cases r <;> simp [devShmGate, statKind]
  · intro p
    have htrace : (real_main envC1).1 =
        [Step.statDevShm, Step.mountCall rootSharedCall, Step.mountCall bindStoreCall,
         Step.mountCall remountStoreROCall, Step.openKmsg, Step.dupFd,
         Step.spawnActivation, Step.waitDirect 7,
         Step.execHandoff systemdPath ["/sbin/init", "--log-target=kmsg"]] := rfl
    rw [htrace]
    simp

/-- Counterexample for claim C2: a run whose activation program exits with
code 3 is a fatal pipeline failure before handoff, yet the process exit
status is 0, refuting the claimed non-zero exit status. -/
theorem c2_counterexample :
    (main envC2).loggedError = some (ShimError.activationNonzero 3) ∧
    (main envC2).exitCode = 0 :=
  ⟨rfl, rfl⟩

/-- Claim C2 amended: for every fatal error before handoff the process logs
that exact error, but the entry point swallows it and returns unit, so the
process terminates with exit status 0. -/
theorem c2_logs_error_and_exits_zero (env : Env) (e : ShimError)
    (h : (real_main env).2 = Except.error e) :
    main env = { loggedError := some e, exitCode := 0 } := by
  unfold main
  rw [h]

/-- Witness for the amended C2 at the concrete failing run envC2. -/
theorem c2_witness :
    main envC2 =
      { loggedError := some (ShimError.activationNonzero 3), exitCode := 0 } :=
  c2_logs_error_and_exits_zero envC2 (ShimError.activationNonzero 3) rfl

/-- Claim C3: interpret_waitid_result maps Ok to success, ECHILD to success,
and every other errno e to a fatal error carrying e; moreover no other OS
error is interpreted as success anywhere in the pipeline - a successful
activation phase requires every oracle before the wait to have succeeded and
the wait to have ended in a zero direct exit or in a fallback Ok or ECHILD,
and a successful unscrew, root remount or store remount requires every one
of its OS calls to have succeeded. -/
theorem c3_waitid_classification :
    interpret_waitid_result (Except.ok ()) = Except.ok () ∧
    interpret_waitid_result (Except.error ECHILD) = Except.ok () ∧
    (∀ e : Nat, e ≠ ECHILD →
      interpret_waitid_result (Except.error e) =
        Except.error (ShimError.ctxOs "When waiting" e)) ∧
    (∀ env : Env, (activationPhase env).2 = Except.ok () →
      env.kmsgOpenRes = Except.ok () ∧ env.dupRes = Except.ok () ∧
      (∃ p, env.spawnRes = Except.ok p) ∧
      (env.childWaitRes = Except.ok (some 0) ∨
        ((∃ e, env.childWaitRes = Except.error e) ∧
         (env.waitidRes = Except.ok () ∨ env.waitidRes = Except.error ECHILD)))) ∧
    (∀ (s : DevShm) (u : UnscrewEnv), (unscrew_dev_shm s u).2 = Except.ok () →
      u.createDirAllRes = Except.ok () ∧ u.moveMountRes = Except.ok () ∧
      u.bindMountRes = Except.ok ()) ∧
    (∀ res : Except Nat Unit, (remount_root_shared res).2 = Except.ok () →
      res = Except.ok ()) ∧
    (∀ b r : Except Nat Unit, (remount_nix_store_readonly b r).2 = Except.ok () →
      b = Except.ok () ∧ r = Except.ok ()) := by
  refine ⟨rfl, rfl, ?_, activationPhase_ok_oracles, unscrew_ok_oracles, ?_, ?_⟩
  · intro e he
    simp [interpret_waitid_result, he]
  · intro res h
    cases res with
    | error e => simp [remount_root_shared] at h
    | ok v => cases v; rfl
  · intro b r h
    cases b with
    | error e => simp [remount_nix_store_readonly] at h
    | ok v =>
      cases v
      cases r with
      | error e => simp [remount_nix_store_readonly] at h
      | ok v2 => cases v2; exact ⟨rfl, rfl⟩

/-- Witness for C3 at the concrete foreign errno EINVAL. -/
theorem c3_witness :
    interpret_waitid_result (Except.error EINVAL) =
      Except.error (ShimError.ctxOs "When waiting" EINVAL) :=
  c3_waitid_classification.2.2.1 EINVAL (by decide)

/-- Claim C5: the supervisor performs the direct wait first; when it succeeds
its code goes through the direct-wait classifier only, and on every direct
wait error (not just ECHILD) the waitid fallback is invoked on the same pid
and decides the outcome; inside the pipeline the pid passed to the supervisor
is exactly the spawned pid. -/
theorem c5_direct_wait_then_fallback :
    (∀ (pid : Int) (code : Option Int) (wd : Except Nat Unit),
      superviseActivation pid (Except.ok code) wd =
        ([Step.waitDirect pid], check_activation_exit code)) ∧
    (∀ (pid : Int) (e : Nat) (wd : Except Nat Unit),
      superviseActivation pid (Except.error e) wd =
        ([Step.waitDirect pid, Step.waitidFallback pid], interpret_waitid_result wd)) ∧
    (∀ (env : Env) (p : Int), env.kmsgOpenRes = Except.ok () →
      env.dupRes = Except.ok () → env.spawnRes = Except.ok p →
      activationPhase env =
        ([Step.openKmsg, Step.dupFd, Step.spawnActivation] ++
           (superviseActivation p env.childWaitRes env.waitidRes).1,
         (superviseActivation p env.childWaitRes env.waitidRes).2)) := by
  refine ⟨fun pid code wd => rfl, fun pid e wd => rfl, ?_⟩
  intro env p hk hd hs
  simp [activationPhase, hk, hd, hs]

/-- Witness for C5: in a run whose direct wait fails with ECHILD, the
activation phase performs the direct wait and the fallback on pid 7 and
succeeds. -/
theorem c5_witness :
    activationPhase envC5 =
      ([Step.openKmsg, Step.dupFd, Step.spawnActivation, Step.waitDirect 7,
        Step.waitidFallback 7], Except.ok ()) := by
  rw [c5_direct_wait_then_fallback.2.2 envC5 7 rfl rfl rfl]
  rfl

/-- Claim C6: the exec argv of the handoff is the original argv0 of the shim,
then the fixed flag --log-target=kmsg, then all original arguments after
argv0 verbatim and in order; the handoff phase issues exactly that exec. -/
theorem c6_handoff_argv_layout :
    (∀ (a0 : String) (rest : List String),
      (handoffCmd a0 rest).execArgv = a0 :: "--log-target=kmsg" :: rest) ∧
    (∀ (env : Env) (a0 : String) (rest : List String), env.argv = a0 :: rest →
      handoffPhase env =
        ([Step.execHandoff systemdPath (a0 :: "--log-target=kmsg" :: rest)],
         Except.error (ShimError.execFailed env.execErrno))) := by
  have hbase : ∀ (a0 : String) (rest : List String),
      (handoffCmd a0 rest).execArgv = a0 :: "--log-target=kmsg" :: rest := by
    intro a0 rest
    simp [handoffCmd, Cmd.new, Cmd.arg0, Cmd.arg, Cmd.args, Cmd.execArgv]
  refine ⟨hbase, ?_⟩
  intro env a0 rest h
  simp [handoffPhase, h, hbase a0 rest]

/-- Witness for C6 at a concrete argv with one forwarded argument. -/
theorem c6_witness :
    handoffPhase envC6 =
      ([Step.execHandoff systemdPath
          ["/sbin/init", "--log-target=kmsg", "--unit=multi-user.target"]],
       Except.error (ShimError.execFailed ENOENT)) := by
  rw [c6_handoff_argv_layout.2 envC6 "/sbin/init" ["--unit=multi-user.target"] rfl]
  rfl

/-- Claim C8: the real_main trace always respects the pipeline order shm
check and repair, root remount, store remount, activation, handoff; when the
activation program exits with a nonzero code the handoff exec never appears
in the trace, and with all earlier steps succeeding the run aborts with the
nonzero-exit error. -/
theorem c8_pipeline_in_order (env : Env) :
    List.Sublist (real_main env).1 (canonicalTrace env) ∧
    (∀ c : Int, env.childWaitRes = Except.ok (some c) → c ≠ 0 →
      ∀ (p : String) (a : List String), Step.execHandoff p a ∉ (real_main env).1) ∧
    (∀ c : Int, preOk env → env.childWaitRes = Except.ok (some c) → c ≠ 0 →
      (real_main env).2 = Except.error (ShimError.activationNonzero c)) := by
  refine ⟨real_main_sublist env, ?_, ?_⟩
  · intro c hcw hc p a hmem
    rcases real_main_mem_cases env _ hmem with h1 | h2 | h3 | h4 | ⟨hok, h5⟩
    · exact execHandoff_notin_shm env p a h1
    · exact execHandoff_notin_root env p a h2
    · exact execHandoff_notin_store env p a h3
    · exact execHandoff_notin_activation env p a h4
    · rcases (activationPhase_ok_oracles env hok).2.2.2 with h0 | ⟨⟨e, he⟩, _⟩
      · rw [hcw] at h0
        simp at h0
        exact hc h0
      · rw [hcw] at he
        simp at he
  · intro c hpre hcw hc
    obtain ⟨hshm, hroot, hsb, hsr, hkm, hdp, p, hsp⟩ := hpre
    have hrootok : (rootPhase env).2 = Except.ok () := by
      simp [rootPhase, remount_root_shared, hroot]
    have hstoreok : (storePhase env).2 = Except.ok () := by
      simp [storePhase, remount_nix_store_readonly, hsb, hsr]
    have hact : (activationPhase env).2 =
        Except.error (ShimError.activationNonzero c) := by
      simp [activationPhase, hkm, hdp, hsp, superviseActivation, hcw,
            check_activation_exit, hc]
    have e1 : (real_main env).2 =
        (seqT (rootPhase env) (fun _ => seqT (storePhase env) (fun _ =>
          seqT (activationPhase env) (fun _ => handoffPhase env)))).2 :=
      seqT_snd_ok _ _ hshm
    have e2 : (seqT (rootPhase env) (fun _ => seqT (storePhase env) (fun _ =>
          seqT (activationPhase env) (fun _ => handoffPhase env)))).2 =
        (seqT (storePhase env) (fun _ =>
          seqT (activationPhase env) (fun _ => handoffPhase env))).2 :=
      seqT_snd_ok _ _ hrootok
    have e3 : (seqT (storePhase env) (fun _ =>
          seqT (activationPhase env) (fun _ => handoffPhase env))).2 =
        (seqT (activationPhase env) (fun _ => handoffPhase env)).2 :=
      seqT_snd_ok _ _ hstoreok
    have e4 : (seqT (activationPhase env) (fun _ => handoffPhase env)).2 =
        Except.error (ShimError.activationNonzero c) :=
      seqT_snd_of_error _ _ _ hact
    exact e1.trans (e2.trans (e3.trans e4))

/-- Witness for C8: in the concrete run whose activation exits with code 17
and everything earlier succeeds, real_main aborts with the nonzero-exit
error and no handoff exec is in the trace. -/
theorem c8_witness :
    (real_main envC8).2 = Except.error (ShimError.activationNonzero 17) ∧
    Step.execHandoff systemdPath ["x"] ∉ (real_main envC8).1 := by
  have h := c8_pipeline_in_order envC8
  refine ⟨h.2.2 17 ⟨rfl, rfl, rfl, rfl, rfl, rfl, ⟨7, rfl⟩⟩ rfl (by decide), ?_⟩
  exact h.2.1 17 rfl (by decide) systemdPath ["x"]

/-- Claim C9: real_main never returns a success value: every terminating
execution ends in an error, because a successful handoff exec never returns
and a returning exec is wrapped in an error unconditionally. -/
theorem c9_real_main_never_ok (env : Env) :
    ∃ e, (real_main env).2 = Except.error e := by
  unfold real_main
  exact seqT_error_of_last _ _ (seqT_error_of_last _ _ (seqT_error_of_last _ _
    (seqT_error_of_last _ _ (handoffPhase_always_error env))))

end ShimVerify
